import Mathlib

/-!
Verification development for a static CV site's publication renderer
(`js/main.js`).  The script populates two profile links from a
configuration object, fetches `data/publications.json`, and renders the
currently selected publication group as a list, with tab controls
switching between groups.

The JavaScript is embedded shallowly:

* strings are Lean `String`s; the character-level operations
  (`String.prototype.replaceAll` / `replace` with single-character
  patterns) are modelled on `List Char`;
* the DOM subtree the script mutates (publications list, freshness line,
  tab controls, two profile links, year span) is a record `DOMState`;
  together with the fetched document it forms the mutable state
  `AppState`, and each JS function that mutates the page becomes a
  function `... → AppState → AppState`;
* `undefined`-able JSON fields are `Option`s; JS truthiness of a
  string-or-undefined value (`undefined` and `""` are falsy) is spelled
  out at each use site with a `match` plus an emptiness test, mirroring
  `if (x)` in the source;
* the `fetch`/`res.json()` pipeline is a parameter `FetchOutcome`
  (network failure, or a response with an HTTP status flag and an
  optional parse result), and the `throw`/`try`/`catch` control flow
  becomes `Except`.
-/

/-- One citation entry of `data/publications.json`:
`{label: string, citation: string, url?: string}`. -/
structure PublicationRecord where
  label : String
  citation : String
  url : Option String
deriving Repr, DecidableEq

/-- The root JSON artifact.  Each group key may be absent (`undefined`
in JS), as may `generated_utc`. -/
structure PublicationDocument where
  journals : Option (List PublicationRecord)
  conferences : Option (List PublicationRecord)
  book_chapters : Option (List PublicationRecord)
  generated_utc : Option String
deriving Repr, DecidableEq

/-- JS `String.prototype.replaceAll` for a single-character pattern:
every occurrence of `c` is replaced by `rep`, scanning left to right,
never rescanning replacement text. -/
def replaceAllChar (c : Char) (rep : List Char) : List Char → List Char
  | [] => []
  | a :: rest => (if a = c then rep else [a]) ++ replaceAllChar c rep rest

/-- JS `String.prototype.replace` for a single-character pattern: only
the first occurrence of `c` is replaced by `rep`. -/
def replaceFirstChar (c : Char) (rep : List Char) : List Char → List Char
  | [] => []
  | a :: rest => if a = c then rep ++ rest else a :: replaceFirstChar c rep rest

/-- The apostrophe character (U+0027), written via its code point. -/
def aposChar : Char := Char.ofNat 39

/-- Replacement text of `escapeHtml` for `&`. -/
def entAmp : List Char := ['&', 'a', 'm', 'p', ';']

/-- Replacement text of `escapeHtml` for `<`. -/
def entLt : List Char := ['&', 'l', 't', ';']

/-- Replacement text of `escapeHtml` for `>`. -/
def entGt : List Char := ['&', 'g', 't', ';']

/-- Replacement text of `escapeHtml` for `"`. -/
def entQuot : List Char := ['&', 'q', 'u', 'o', 't', ';']

/-- Replacement text of `escapeHtml` for the apostrophe. -/
def entApos : List Char := ['&', '#', '3', '9', ';']

/-- Character-list core of `escapeHtml` from `js/main.js`: the five
`replaceAll` calls applied in source order (`&` first, then `<`, `>`,
`"`, `'`). -/
def escapeHtmlL (s : List Char) : List Char :=
  replaceAllChar aposChar entApos
    (replaceAllChar '"' entQuot
      (replaceAllChar '>' entGt
        (replaceAllChar '<' entLt
          (replaceAllChar '&' entAmp s))))

/-- JS `escapeHtml(str)` on `String`s. -/
def escapeHtml (s : String) : String :=
  String.mk (escapeHtmlL s.data)

/-- An anchor element created inside a publication list item: `href`,
`target`, `rel` attributes and its text content (`"DOI"`). -/
structure LinkEl where
  href : String
  target : String
  rel : String
  text : String
deriving Repr, DecidableEq

/-- One `<li class="pub-item">` built by `renderPublications`: the
`pub-tag` text, the `pub-cit` innerHTML, and the anchors appended to
`pub-links` (CSS class names are fixed constants in the source and are
not modelled). -/
structure RenderedItem where
  tag : String
  cit : String
  links : List LinkEl
deriving Repr, DecidableEq

/-- A profile link element (`#scholarLink` / `#orcidLink`): the script
sets only `href` and `textContent`. -/
structure ProfileLink where
  href : String
  text : String
deriving Repr, DecidableEq

/-- A tab control (`.tab` element): its `data-tab` attribute and whether
the `active` class is present.  The DOM contract requires every tab to
carry a group-key attribute. -/
structure Tab where
  key : String
  active : Bool
deriving Repr, DecidableEq

/-- The part of the page the script mutates. -/
structure DOMState where
  pubList : List RenderedItem
  pubUpdated : String
  tabs : List Tab
  scholar : ProfileLink
  orcid : ProfileLink
  year : String
deriving Repr, DecidableEq

/-- The script's mutable state: the fetched document object (a heap
value the renderer could in principle write to) plus the DOM, plus the
`active` variable of the `initTabs` closure. -/
structure AppState where
  doc : PublicationDocument
  dom : DOMState
  active : String
deriving Repr, DecidableEq

/-- Body of the `items.forEach` loop in `renderPublications`, for one
record.  `if (it.url)` is JS truthiness: the anchor is created only when
`url` is present and non-empty. -/
def renderItem (it : PublicationRecord) : RenderedItem :=
  { tag := it.label
    cit := escapeHtml it.citation
    links :=
      match it.url with
      | none => []
      | some u => if u = "" then [] else [⟨u, "_blank", "noreferrer", "DOI"⟩] }

/-- The `items.forEach((it) => ... list.appendChild(li))` loop: starting
from the cleared list (`list.innerHTML = ""`), append one item per
record in order. -/
def renderItems (items : List PublicationRecord) : List RenderedItem :=
  items.foldl (fun acc it => acc ++ [renderItem it]) []

/-- The `groups` object literal plus `groups[tabKey] || []`:
`pubData.journals || []` etc. default an absent group to `[]`, and an
unrecognized key yields `undefined`, defaulted to `[]`. -/
def getGroup (d : PublicationDocument) (k : String) : List PublicationRecord :=
  if k = "journals" then d.journals.getD []
  else if k = "conferences" then d.conferences.getD []
  else if k = "book_chapters" then d.book_chapters.getD []
  else []

/-- Freshness line set on `#pubUpdated`: `if (pubData.generated_utc)` is
JS truthiness; the shown text replaces the first `T` by a space and the
first `Z` by `" UTC"` (JS `replace`, not `replaceAll`). -/
def updatedText (d : PublicationDocument) : String :=
  match d.generated_utc with
  | none => ""
  | some g =>
      if g = "" then ""
      else "Last updated " ++
        String.mk (replaceFirstChar 'Z' (String.data " UTC")
          (replaceFirstChar 'T' [' '] g.data))

/-- JS `renderPublications(pubData, tabKey)`: clears `#pubList`,
appends one `li` per record of the selected group, then rewrites
`#pubUpdated`.  Only the DOM component of the state changes. -/
def renderPublications (tabKey : String) (st : AppState) : AppState :=
  { st with
      dom := { st.dom with
        pubList := renderItems (getGroup st.doc tabKey)
        pubUpdated := updatedText st.doc } }

/-- The `setActive` closure of `initTabs`: stores the key in `active`,
toggles the `active` class on every tab (`t.dataset.tab === key`), and
re-renders. -/
def setActive (key : String) (st : AppState) : AppState :=
  renderPublications key
    { st with
        active := key
        dom := { st.dom with
          tabs := st.dom.tabs.map (fun t => { t with active := t.key = key }) } }

/-- JS `initTabs(pubData)`: wires the click handlers (each click on tab
`t` runs `setActive t.dataset.tab`) and establishes the default
selection `setActive "journals"`. -/
def initTabs (st : AppState) : AppState :=
  setActive "journals" st

/-- A sequence of tab clicks after `initTabs`: each click on a tab with
key `k` runs `setActive k`. -/
def clickSeq (ks : List String) (st : AppState) : AppState :=
  ks.foldl (fun s k => setActive k s) st

/-- Operator configuration at the top of `js/main.js`.  The fields are
strings the operator may also leave empty or delete, hence
string-or-undefined. -/
structure SiteConfig where
  scholarProfileUrl : Option String
  orcidId : Option String
deriving Repr, DecidableEq

/-- The configured values in the shipped `js/main.js`. -/
def siteConfig : SiteConfig :=
  { scholarProfileUrl := some "https://scholar.google.com/citations?user=pbAP-VQAAAAJ&hl=en"
    orcidId := some "0000-0002-8696-0920" }

/-- Text shown on the scholar link when `scholarProfileUrl` is falsy
(the source shows the example URL literal as a placeholder). -/
def scholarPlaceholderText : String :=
  "https://scholar.google.com/citations?user=pbAP-VQAAAAJ&hl=en"

/-- Prompt shown on the ORCID link when `orcidId` is falsy. -/
def orcidPromptText : String := "Add your ORCID"

/-- Scholar branch of `setProfileLinks`: `if (siteConfig.scholarProfileUrl)`
is JS truthiness. -/
def scholarLinkOf (cfg : SiteConfig) : ProfileLink :=
  match cfg.scholarProfileUrl with
  | none => ⟨"#", scholarPlaceholderText⟩
  | some u => if u = "" then ⟨"#", scholarPlaceholderText⟩ else ⟨u, "Open profile"⟩

/-- ORCID branch of `setProfileLinks`: on a truthy `orcidId` the target
is `https://orcid.org/${orcidId}` and the visible text is the id. -/
def orcidLinkOf (cfg : SiteConfig) : ProfileLink :=
  match cfg.orcidId with
  | none => ⟨"#", orcidPromptText⟩
  | some i => if i = "" then ⟨"#", orcidPromptText⟩ else ⟨"https://orcid.org/" ++ i, i⟩

/-- JS `setProfileLinks()`, parametrized by the configuration object it
reads (the source reads the global `siteConfig`). -/
def setProfileLinks (cfg : SiteConfig) (st : AppState) : AppState :=
  { st with
      dom := { st.dom with scholar := scholarLinkOf cfg, orcid := orcidLinkOf cfg } }

/-- Outcome of `fetch("data/publications.json?v=" + Date.now())`
followed by `res.json()`: the fetch itself may reject (network error),
or return a response whose `ok` flag and JSON parse result we model;
`body = none` is a JSON syntax error rejecting `res.json()`. -/
inductive FetchOutcome where
  | networkError
  | response (ok : Bool) (body : Option PublicationDocument)
deriving Repr, DecidableEq

/-- JS `loadPublications()`: a rejected fetch propagates; a non-ok
response throws `Error("Could not load publications.json")`; a body
that fails to parse rejects out of `res.json()`. -/
def loadPublications (r : FetchOutcome) : Except String PublicationDocument :=
  match r with
  | .networkError => .error "TypeError: Failed to fetch"
  | .response ok body =>
      if ok = false then .error "Could not load publications.json"
      else
        match body with
        | none => .error "SyntaxError: unexpected JSON input"
        | some d => .ok d

/-- The literal HTML written into `#pubList` by the `catch` branch of
`main` (apostrophes written as `\x27`). -/
def errorHtml : String :=
  "<li class=\x27pub-item\x27><div class=\x27pub-tag\x27>info</div><div class=\x27pub-cit\x27>Publications could not be loaded. Check data/publications.json.</div></li>"

/-- The single list item that `errorHtml` parses to. -/
def errorListItem : RenderedItem :=
  { tag := "info"
    cit := "Publications could not be loaded. Check data/publications.json."
    links := [] }

/-- Number of occurrences of `pat` as a substring (counted at every
starting position). -/
def countOccurrences (pat : List Char) : List Char → Nat
  | [] => 0
  | a :: rest =>
      (if pat.isPrefixOf (a :: rest) then 1 else 0) + countOccurrences pat rest

namespace Site

/-- JS `main()`, parametrized by the configuration, the current year
string, and the fetch outcome.  The single `try`/`catch` converts every
load failure into the static one-item notice; no failure escapes
(namespaced because Lean reserves the top-level name `main`). -/
def main (cfg : SiteConfig) (year : String) (r : FetchOutcome) (st : AppState) : AppState :=
  let st1 := { st with dom := { st.dom with year := year } }
  let st2 := setProfileLinks cfg st1
  match loadPublications r with
  | .ok d => initTabs { st2 with doc := d }
  | .error _ => { st2 with dom := { st2.dom with pubList := [errorListItem] } }

end Site

/-- Per-character view of the composite escaping: what `escapeHtmlL`
does to a single character. -/
def escChar (a : Char) : List Char :=
  if a = '&' then entAmp
  else if a = '<' then entLt
  else if a = '>' then entGt
  else if a = '"' then entQuot
  else if a = aposChar then entApos
  else [a]

/-- Recognizes a suffix that starts with the tail of one of the five
entities emitted by `escapeHtml` (everything after the `&`). -/
def entTailOk (l : List Char) : Bool :=
  List.isPrefixOf ['a', 'm', 'p', ';'] l ||
  List.isPrefixOf ['l', 't', ';'] l ||
  List.isPrefixOf ['g', 't', ';'] l ||
  List.isPrefixOf ['q', 'u', 'o', 't', ';'] l ||
  List.isPrefixOf ['#', '3', '9', ';'] l

/-- Injection-safety predicate on rendered markup: no `<`, `>`, `"` or
apostrophe occurs at all, and every `&` is immediately followed by the
tail of one of the five emitted entities (no bare ampersand). -/
def escOk : List Char → Bool
  | [] => true
  | a :: rest =>
      if a = '<' ∨ a = '>' ∨ a = '"' ∨ a = aposChar then false
      else if a = '&' then entTailOk rest && escOk rest
      else escOk rest

theorem replaceAllChar_append (c : Char) (rep l₁ l₂ : List Char) :
    replaceAllChar c rep (l₁ ++ l₂) =
      replaceAllChar c rep l₁ ++ replaceAllChar c rep l₂ := by
  induction l₁ with
  | nil => rfl
  | cons a l ih => simp [replaceAllChar, ih]

theorem escapeHtmlL_append (l₁ l₂ : List Char) :
    escapeHtmlL (l₁ ++ l₂) = escapeHtmlL l₁ ++ escapeHtmlL l₂ := by
  simp [escapeHtmlL, replaceAllChar_append]

theorem escapeHtmlL_singleton (a : Char) : escapeHtmlL [a] = escChar a := by
  by_cases h1 : a = '&'
  · subst h1; rfl
  by_cases h2 : a = '<'
  · subst h2; rfl
  by_cases h3 : a = '>'
  · subst h3; rfl
  by_cases h4 : a = '"'
  · subst h4; rfl
  by_cases h5 : a = aposChar
  · subst h5; rfl
  simp [escapeHtmlL, replaceAllChar, escChar, h1, h2, h3, h4, h5]

theorem escapeHtmlL_cons (a : Char) (l : List Char) :
    escapeHtmlL (a :: l) = escChar a ++ escapeHtmlL l := by
  have h : a :: l = [a] ++ l := rfl
  rw [h, escapeHtmlL_append, escapeHtmlL_singleton]

theorem escOk_entAmp_append (e : List Char) : escOk (entAmp ++ e) = escOk e := by
  simp [entAmp, escOk, entTailOk, List.isPrefixOf, aposChar]

theorem escOk_entLt_append (e : List Char) : escOk (entLt ++ e) = escOk e := by
  simp [entLt, escOk, entTailOk, List.isPrefixOf, aposChar]

theorem escOk_entGt_append (e : List Char) : escOk (entGt ++ e) = escOk e := by
  simp [entGt, escOk, entTailOk, List.isPrefixOf, aposChar]

theorem escOk_entQuot_append (e : List Char) : escOk (entQuot ++ e) = escOk e := by
  simp [entQuot, escOk, entTailOk, List.isPrefixOf, aposChar]

theorem escOk_entApos_append (e : List Char) : escOk (entApos ++ e) = escOk e := by
  simp [entApos, escOk, entTailOk, List.isPrefixOf, aposChar]

theorem escOk_escChar_append (a : Char) (e : List Char) (he : escOk e = true) :
    escOk (escChar a ++ e) = true := by
  by_cases h1 : a = '&'
  · rw [escChar, if_pos h1, escOk_entAmp_append]; exact he
  by_cases h2 : a = '<'
  · rw [escChar, if_neg h1, if_pos h2, escOk_entLt_append]; exact he
  by_cases h3 : a = '>'
  · rw [escChar, if_neg h1, if_neg h2, if_pos h3, escOk_entGt_append]; exact he
  by_cases h4 : a = '"'
  · rw [escChar, if_neg h1, if_neg h2, if_neg h3, if_pos h4, escOk_entQuot_append]
    exact he
  by_cases h5 : a = aposChar
  · rw [escChar, if_neg h1, if_neg h2, if_neg h3, if_neg h4, if_pos h5,
      escOk_entApos_append]
    exact he
  · rw [escChar, if_neg h1, if_neg h2, if_neg h3, if_neg h4, if_neg h5]
    show escOk (a :: e) = true
    rw [escOk]
    rw [if_neg (by push_neg; exact ⟨h2, h3, h4, h5⟩), if_neg h1]
    exact he

theorem escOk_escapeHtmlL (s : List Char) : escOk (escapeHtmlL s) = true := by
  induction s with
  | nil => rfl
  | cons a l ih => rw [escapeHtmlL_cons]; exact escOk_escChar_append a _ ih

theorem escOk_no_special (l : List Char) (h : escOk l = true) :
    '<' ∉ l ∧ '>' ∉ l ∧ '"' ∉ l ∧ aposChar ∉ l := by
  induction l with
  | nil => simp
  | cons a rest ih =>
      rw [escOk] at h
      by_cases hs : a = '<' ∨ a = '>' ∨ a = '"' ∨ a = aposChar
      · rw [if_pos hs] at h; exact absurd h (by simp)
      · rw [if_neg hs] at h
        push_neg at hs
        obtain ⟨hs1, hs2, hs3, hs4⟩ := hs
        have hrest : escOk rest = true := by
          by_cases ha : a = '&'
          · rw [if_pos ha, Bool.and_eq_true] at h; exact h.2
          · rwa [if_neg ha] at h
        obtain ⟨i1, i2, i3, i4⟩ := ih hrest
        refine ⟨?_, ?_, ?_, ?_⟩ <;> simp only [List.mem_cons, not_or]
        · exact ⟨fun hc => hs1 hc.symm, i1⟩
        · exact ⟨fun hc => hs2 hc.symm, i2⟩
        · exact ⟨fun hc => hs3 hc.symm, i3⟩
        · exact ⟨fun hc => hs4 hc.symm, i4⟩

theorem foldl_append_renderItem (l : List PublicationRecord) (acc : List RenderedItem) :
    l.foldl (fun a it => a ++ [renderItem it]) acc = acc ++ l.map renderItem := by
  induction l generalizing acc with
  | nil => simp
  | cons x xs ih => simp [List.foldl_cons, ih]

theorem renderItems_eq_map (items : List PublicationRecord) :
    renderItems items = items.map renderItem := by
  simp [renderItems, foldl_append_renderItem]

/-- Sample records and page state used by the concrete witnesses. -/
def sampleRec1 : PublicationRecord :=
  { label := "j2"
    citation := "B. Author, Title <X> & co"
    url := some "https://doi.org/10.1/a" }

/-- Sample record without a `url` field. -/
def sampleRec2 : PublicationRecord :=
  { label := "j1", citation := "C. Author", url := none }

/-- Sample document: two journal records, no `conferences` key, an
empty `book_chapters` group. -/
def sampleDoc : PublicationDocument :=
  { journals := some [sampleRec1, sampleRec2]
    conferences := none
    book_chapters := some []
    generated_utc := some "2024-05-06T07:08:09Z" }

/-- The three tab controls the host page provides. -/
def sampleTabs : List Tab :=
  [⟨"journals", false⟩, ⟨"conferences", false⟩, ⟨"book_chapters", false⟩]

/-- Sample pre-render page state. -/
def sampleState : AppState :=
  { doc := sampleDoc
    dom :=
      { pubList := []
        pubUpdated := ""
        tabs := sampleTabs
        scholar := ⟨"", ""⟩
        orcid := ⟨"", ""⟩
        year := "" }
    active := "" }

/-- C1: a single `escapeHtml` pass is injection-safe — its output
contains no `<`, `>`, `"` or apostrophe at all, and every `&` in the
output starts one of the five escape entities (no bare ampersand), so
assigning the result as markup displays the original characters as
literal text. -/
theorem escapeHtml_injection_safe (s : String) :
    escOk (escapeHtml s).data = true ∧
    '<' ∉ (escapeHtml s).data ∧ '>' ∉ (escapeHtml s).data ∧
    '"' ∉ (escapeHtml s).data ∧ aposChar ∉ (escapeHtml s).data := by
  have h : escOk (escapeHtml s).data = true := escOk_escapeHtmlL s.data
  obtain ⟨n1, n2, n3, n4⟩ := escOk_no_special _ h
  exact ⟨h, n1, n2, n3, n4⟩

/-- C2: rendering a recognized group with N records produces exactly N
list items, the i-th item being the rendering of the i-th record, so
items appear in input order. -/
theorem renderPublications_group_items (st : AppState) (k : String)
    (_hk : k = "journals" ∨ k = "conferences" ∨ k = "book_chapters") :
    (renderPublications k st).dom.pubList = (getGroup st.doc k).map renderItem ∧
    (renderPublications k st).dom.pubList.length = (getGroup st.doc k).length := by
  constructor
  · simp [renderPublications, renderItems_eq_map]
  · simp [renderPublications, renderItems_eq_map]

/-- Witness for C2 at a concrete document with two journal records. -/
theorem renderPublications_group_items_witness :
    (renderPublications "journals" sampleState).dom.pubList =
      (getGroup sampleState.doc "journals").map renderItem ∧
    (renderPublications "journals" sampleState).dom.pubList.length =
      (getGroup sampleState.doc "journals").length :=
  renderPublications_group_items sampleState "journals" (Or.inl rfl)

/-- Property names of `Object.prototype`, the prototype of the `groups`
object literal in `renderPublications`.  JS property lookup falls back
to the prototype chain, so `groups[k]` for any of these `k` yields the
inherited member — a built-in function, or the prototype object itself
for `__proto__` — all of which are truthy non-arrays. -/
def objectPrototypeProps : List String :=
  ["constructor", "hasOwnProperty", "isPrototypeOf",
   "propertyIsEnumerable", "toLocaleString", "toString", "valueOf",
   "__defineGetter__", "__defineSetter__", "__lookupGetter__",
   "__lookupSetter__", "__proto__"]

/-- The JS value of `groups[tabKey] || []`: an array of records (an own
property of the literal, or `undefined` defaulted by `|| []`), or an
inherited `Object.prototype` member, which is truthy and therefore
survives `|| []` unchanged. -/
inductive GroupsValue where
  | arr (items : List PublicationRecord)
  | inherited
deriving Repr, DecidableEq

/-- Full JS property lookup for `groups[tabKey] || []`: own properties
first (they shadow the chain), then the prototype chain, then the
`|| []` default for `undefined`. -/
def groupsGet (d : PublicationDocument) (k : String) : GroupsValue :=
  if k = "journals" then .arr (d.journals.getD [])
  else if k = "conferences" then .arr (d.conferences.getD [])
  else if k = "book_chapters" then .arr (d.book_chapters.getD [])
  else if k ∈ objectPrototypeProps then .inherited
  else .arr []

/-- `renderPublications` under full JS lookup semantics: on an array it
renders exactly as `renderPublications`; on an inherited non-array,
`items.forEach` at the loop head throws `TypeError` (after the list was
already cleared), which propagates out of the function.  `getGroup` is
the own-property restriction of this lookup; the two agree whenever the
key does not name an `Object.prototype` member. -/
def renderPublicationsJS (tabKey : String) (st : AppState) :
    Except String AppState :=
  match groupsGet st.doc tabKey with
  | .inherited => .error "TypeError: items.forEach is not a function"
  | .arr items =>
      .ok { st with
              dom := { st.dom with
                pubList := renderItems items
                pubUpdated := updatedText st.doc } }

theorem renderPublicationsJS_agrees (st : AppState) (k : String)
    (h : k ∉ objectPrototypeProps) :
    renderPublicationsJS k st = Except.ok (renderPublications k st) := by
  by_cases h1 : k = "journals"
  · subst h1; rfl
  by_cases h2 : k = "conferences"
  · subst h2; rfl
  by_cases h3 : k = "book_chapters"
  · subst h3; rfl
  simp [renderPublicationsJS, renderPublications, groupsGet, getGroup,
    h1, h2, h3, h]

/-- Counterexample to C4 as stated: `"toString"` is not among the three
recognized keys, yet rendering it raises a `TypeError` instead of an
empty render — `groups["toString"]` finds the inherited truthy
`Object.prototype.toString`, `|| []` keeps it, and `items.forEach`
throws. -/
theorem renderPublicationsJS_inherited_raises :
    (("toString" : String) ≠ "journals" ∧ ("toString" : String) ≠ "conferences" ∧
      ("toString" : String) ≠ "book_chapters") ∧
    renderPublicationsJS "toString" sampleState =
      Except.error "TypeError: items.forEach is not a function" :=
  ⟨by decide, rfl⟩

/-- C4 (amended): a group key not among the three recognized keys and
not naming an inherited `Object.prototype` property yields an empty
render — zero list items — with no error; a key naming an inherited
`Object.prototype` property makes `items.forEach` throw a
`TypeError`. -/
theorem renderPublicationsJS_unrecognized_empty (st : AppState) (k : String)
    (h1 : k ≠ "journals") (h2 : k ≠ "conferences") (h3 : k ≠ "book_chapters") :
    (k ∉ objectPrototypeProps →
      ∃ st2, renderPublicationsJS k st = Except.ok st2 ∧
        st2.dom.pubList = []) ∧
    (k ∈ objectPrototypeProps →
      renderPublicationsJS k st =
        Except.error "TypeError: items.forEach is not a function") := by
  constructor
  · intro h4
    refine ⟨{ st with
                dom := { st.dom with
                  pubList := renderItems []
                  pubUpdated := updatedText st.doc } }, ?_, rfl⟩
    simp [renderPublicationsJS, groupsGet, h1, h2, h3, h4]
  · intro h4
    simp [renderPublicationsJS, groupsGet, h1, h2, h3, h4]

/-- Witness for the amended C4: the plain unrecognized key `"misc"`
renders empty without error, and the inherited key `"toString"`
raises. -/
theorem renderPublicationsJS_unrecognized_empty_witness :
    (∃ st2, renderPublicationsJS "misc" sampleState = Except.ok st2 ∧
      st2.dom.pubList = []) ∧
    renderPublicationsJS "toString" sampleState =
      Except.error "TypeError: items.forEach is not a function" :=
  ⟨(renderPublicationsJS_unrecognized_empty sampleState "misc"
      (by decide) (by decide) (by decide)).1 (by decide),
   (renderPublicationsJS_unrecognized_empty sampleState "toString"
      (by decide) (by decide) (by decide)).2 (by decide)⟩

/-- C6: when any recognized group key is entirely absent from the
document, rendering that group's tab yields zero items — the missing
group defaults to the empty sequence via `pubData.<key> || []` — and,
under full JS lookup semantics, no error is raised. -/
theorem renderPublications_missing_group_empty (st : AppState) (k : String)
    (h : (k = "journals" ∧ st.doc.journals = none) ∨
         (k = "conferences" ∧ st.doc.conferences = none) ∨
         (k = "book_chapters" ∧ st.doc.book_chapters = none)) :
    (renderPublications k st).dom.pubList = [] ∧
    renderPublicationsJS k st = Except.ok (renderPublications k st) := by
  rcases h with ⟨hk, hn⟩ | ⟨hk, hn⟩ | ⟨hk, hn⟩ <;> subst hk <;>
    exact ⟨by simp [renderPublications, getGroup, hn, renderItems],
      renderPublicationsJS_agrees _ _ (by decide)⟩

/-- Witness for C6 at two concrete inputs: `sampleDoc` lacks the
`conferences` key, and an all-absent document lacks `journals`. -/
theorem renderPublications_missing_group_empty_witness :
    ((renderPublications "conferences" sampleState).dom.pubList = [] ∧
      renderPublicationsJS "conferences" sampleState =
        Except.ok (renderPublications "conferences" sampleState)) ∧
    ((renderPublications "journals"
        { sampleState with doc := ⟨none, none, none, none⟩ }).dom.pubList = [] ∧
      renderPublicationsJS "journals"
          { sampleState with doc := ⟨none, none, none, none⟩ } =
        Except.ok (renderPublications "journals"
          { sampleState with doc := ⟨none, none, none, none⟩ })) :=
  ⟨renderPublications_missing_group_empty sampleState "conferences"
      (Or.inr (Or.inl ⟨rfl, rfl⟩)),
   renderPublications_missing_group_empty
      { sampleState with doc := ⟨none, none, none, none⟩ } "journals"
      (Or.inl ⟨rfl, rfl⟩)⟩

/-- Counterexample to C3 as stated: a record whose `url` field is
present but empty has `url`, yet its rendered item carries no link at
all — `if (it.url)` tests JS truthiness, and `""` is falsy. -/
theorem renderItem_url_present_without_link :
    (({ label := "j1", citation := "t", url := some "" } :
        PublicationRecord)).url.isSome = true ∧
    (renderItem { label := "j1", citation := "t", url := some "" }).links = [] :=
  ⟨rfl, rfl⟩

/-- C3 (amended): a record lacking `url`, or whose `url` is the empty
string, renders with no outbound link; a record with a non-empty `url`
renders exactly one link, labeled "DOI", whose target is that url. -/
theorem renderItem_link_spec (r : PublicationRecord) :
    (r.url = none → (renderItem r).links = []) ∧
    (r.url = some "" → (renderItem r).links = []) ∧
    (∀ u, r.url = some u → u ≠ "" →
      (renderItem r).links = [⟨u, "_blank", "noreferrer", "DOI"⟩]) := by
  refine ⟨?_, ?_, ?_⟩
  · intro h; simp [renderItem, h]
  · intro h; simp [renderItem, h]
  · intro u hu hne; simp [renderItem, hu, hne]

/-- Witness for the amended C3 at a record without `url` and a record
with a non-empty `url`. -/
theorem renderItem_link_spec_witness :
    (renderItem sampleRec2).links = [] ∧
    (renderItem sampleRec1).links =
      [⟨"https://doi.org/10.1/a", "_blank", "noreferrer", "DOI"⟩] :=
  ⟨(renderItem_link_spec sampleRec2).1 rfl,
   (renderItem_link_spec sampleRec1).2.2 "https://doi.org/10.1/a" rfl (by decide)⟩

/-- C10: a rendered record carries an outbound link exactly when its
`url` is present and non-empty (JS-truthy); in particular a present but
empty `url` yields no link. -/
theorem renderItem_link_iff_truthy (r : PublicationRecord) :
    (renderItem r).links ≠ [] ↔ ∃ u, r.url = some u ∧ u ≠ "" := by
  cases hu : r.url with
  | none => simp [renderItem, hu]
  | some u =>
      by_cases h : u = "" <;> simp [renderItem, hu, h]

/-- C5: for each profile link, a falsy identifier yields the disabled
placeholder target `"#"` with the fixed placeholder/prompt text, and a
truthy identifier yields the active hyperlink; in particular a set
scholar URL shows "Open profile" while an unset ORCID id shows the
prompt over the placeholder target. -/
theorem setProfileLinks_spec (cfg : SiteConfig) (st : AppState) :
    ((cfg.scholarProfileUrl = none ∨ cfg.scholarProfileUrl = some "") →
      (setProfileLinks cfg st).dom.scholar = ⟨"#", scholarPlaceholderText⟩) ∧
    ((cfg.orcidId = none ∨ cfg.orcidId = some "") →
      (setProfileLinks cfg st).dom.orcid = ⟨"#", orcidPromptText⟩) ∧
    (∀ u, cfg.scholarProfileUrl = some u → u ≠ "" →
      (setProfileLinks cfg st).dom.scholar = ⟨u, "Open profile"⟩) ∧
    (∀ i, cfg.orcidId = some i → i ≠ "" →
      (setProfileLinks cfg st).dom.orcid = ⟨"https://orcid.org/" ++ i, i⟩) := by
  refine ⟨?_, ?_, ?_, ?_⟩
  · rintro (h | h) <;> simp [setProfileLinks, scholarLinkOf, h]
  · rintro (h | h) <;> simp [setProfileLinks, orcidLinkOf, h]
  · intro u hu hne; simp [setProfileLinks, scholarLinkOf, hu, hne]
  · intro i hi hne; simp [setProfileLinks, orcidLinkOf, hi, hne]

/-- The C5 scenario configuration: `scholarProfileUrl` set, `orcidId`
unset. -/
def scenarioConfig : SiteConfig :=
  { scholarProfileUrl :=
      some "https://scholar.google.com/citations?user=pbAP-VQAAAAJ&hl=en"
    orcidId := none }

/-- Witness for C5 at the scenario configuration. -/
theorem setProfileLinks_spec_witness :
    (setProfileLinks scenarioConfig sampleState).dom.scholar =
      ⟨"https://scholar.google.com/citations?user=pbAP-VQAAAAJ&hl=en",
        "Open profile"⟩ ∧
    (setProfileLinks scenarioConfig sampleState).dom.orcid =
      ⟨"#", orcidPromptText⟩ :=
  ⟨(setProfileLinks_spec scenarioConfig sampleState).2.2.1
      "https://scholar.google.com/citations?user=pbAP-VQAAAAJ&hl=en" rfl
      (by decide),
   (setProfileLinks_spec scenarioConfig sampleState).2.1 (Or.inl rfl)⟩

set_option maxRecDepth 8192 in
/-- C7: whenever the document load fails (network error, non-ok
response, or parse failure), `main` catches the failure and leaves
exactly one informational list item in the publications list; the
`errorHtml` literal it writes contains exactly one `<li`.  `main` is a
total function of the fetch outcome, so no fault escapes
initialization. -/
theorem main_load_failure_single_notice (cfg : SiteConfig) (year : String)
    (r : FetchOutcome) (st : AppState) (e : String)
    (h : loadPublications r = Except.error e) :
    (Site.main cfg year r st).dom.pubList = [errorListItem] ∧
    (Site.main cfg year r st).dom.pubList.length = 1 ∧
    countOccurrences (String.data "<li") errorHtml.data = 1 := by
  refine ⟨?_, ?_, by decide⟩
  · simp [Site.main, h]
  · simp [Site.main, h]

/-- Witness for C7 at a network failure. -/
theorem main_load_failure_single_notice_witness :
    (Site.main siteConfig "2026" FetchOutcome.networkError sampleState).dom.pubList =
      [errorListItem] ∧
    (Site.main siteConfig "2026" FetchOutcome.networkError
        sampleState).dom.pubList.length = 1 ∧
    countOccurrences (String.data "<li") errorHtml.data = 1 :=
  main_load_failure_single_notice siteConfig "2026" FetchOutcome.networkError
    sampleState "TypeError: Failed to fetch" rfl

/-- C9: neither rendering a group, nor selecting a tab, nor tab
initialization, nor any click sequence modifies the publication
document — the renderer only reads it. -/
theorem renderer_preserves_doc (st : AppState) (key : String) (ks : List String) :
    (renderPublications key st).doc = st.doc ∧
    (setActive key st).doc = st.doc ∧
    (initTabs st).doc = st.doc ∧
    (clickSeq ks st).doc = st.doc := by
  refine ⟨rfl, rfl, rfl, ?_⟩
  induction ks generalizing st with
  | nil => rfl
  | cons k ks ih =>
      show (clickSeq ks (setActive k st)).doc = st.doc
      rw [ih (setActive k st)]
      rfl

/-- Number of tab controls currently carrying the `active` class. -/
def activeCount (ts : List Tab) : Nat := ts.countP (fun t => t.active)

/-- The `data-tab` keys of the page's tab controls. -/
def tabKeys (st : AppState) : List String := st.dom.tabs.map Tab.key

/-- Invariant after a tab selection: exactly one tab carries the
`active` class, a tab is marked active exactly when its key is the
selected one, and the rendered list is the selected group, one item per
record in order. -/
def TabInv (st : AppState) : Prop :=
  activeCount st.dom.tabs = 1 ∧
  (∀ t ∈ st.dom.tabs, t.active = decide (t.key = st.active)) ∧
  st.dom.pubList = (getGroup st.doc st.active).map renderItem

theorem countP_key_eq (l : List Tab) (k : String)
    (hnd : (l.map Tab.key).Nodup) (hk : k ∈ l.map Tab.key) :
    l.countP (fun t => decide (t.key = k)) = 1 := by
  induction l with
  | nil => simp at hk
  | cons t ts ih =>
      rw [List.map_cons, List.nodup_cons] at hnd
      obtain ⟨hnotin, hnd2⟩ := hnd
      rw [List.countP_cons]
      by_cases h : t.key = k
      · have hzero : ts.countP (fun s => decide (s.key = k)) = 0 := by
          rw [List.countP_eq_zero]
          intro s hs
          simp only [decide_eq_true_eq]
          intro hsk
          exact hnotin (h ▸ hsk ▸ List.mem_map_of_mem Tab.key hs)
        simp [hzero, h]
      · have hk2 : k ∈ ts.map Tab.key := by
          rcases List.mem_cons.mp (List.map_cons Tab.key t ts ▸ hk) with h1 | h1
          · exact absurd h1.symm h
          · exact h1
        simp [h, ih hnd2 hk2]

theorem setActive_tabKeys (k : String) (st : AppState) :
    tabKeys (setActive k st) = tabKeys st := by
  show (st.dom.tabs.map fun t => { t with active := decide (t.key = k) }).map Tab.key
      = st.dom.tabs.map Tab.key
  rw [List.map_map]
  rfl

theorem setActive_inv (st : AppState) (k : String)
    (hnd : (tabKeys st).Nodup) (hk : k ∈ tabKeys st) :
    TabInv (setActive k st) := by
  refine ⟨?_, ?_, ?_⟩
  · show activeCount (st.dom.tabs.map fun t => { t with active := decide (t.key = k) }) = 1
    unfold activeCount
    rw [List.countP_map]
    exact countP_key_eq st.dom.tabs k hnd hk
  · intro t ht
    rcases List.mem_map.mp ht with ⟨t0, _, rfl⟩
    rfl
  · show renderItems (getGroup st.doc k) = (getGroup st.doc k).map renderItem
    exact renderItems_eq_map _

theorem clickSeq_inv (ks : List String) (st : AppState)
    (hnd : (tabKeys st).Nodup) (hks : ∀ k ∈ ks, k ∈ tabKeys st)
    (hinv : TabInv st) :
    TabInv (clickSeq ks st) ∧ tabKeys (clickSeq ks st) = tabKeys st ∧
    (clickSeq ks st).active = ks.foldl (fun _ k => k) st.active := by
  induction ks generalizing st with
  | nil => exact ⟨hinv, rfl, rfl⟩
  | cons k ks ih =>
      have hk : k ∈ tabKeys st := hks k (List.mem_cons_self k ks)
      have h1 : TabInv (setActive k st) := setActive_inv st k hnd hk
      have hkeys : tabKeys (setActive k st) = tabKeys st := setActive_tabKeys k st
      have hks2 : ∀ k2 ∈ ks, k2 ∈ tabKeys (setActive k st) := by
        intro k2 hk2
        rw [hkeys]
        exact hks k2 (List.mem_cons_of_mem k hk2)
      obtain ⟨j1, j2, j3⟩ := ih (setActive k st) (hkeys ▸ hnd) hks2 h1
      refine ⟨j1, ?_, ?_⟩
      · show tabKeys (clickSeq ks (setActive k st)) = tabKeys st
        rw [j2, hkeys]
      · show (clickSeq ks (setActive k st)).active = ks.foldl (fun _ k2 => k2) k
        exact j3

/-- C8: starting from any page whose tab controls have pairwise
distinct keys including `"journals"`, after `initTabs` (which selects
the default tab) followed by any sequence of tab clicks, exactly one
tab is marked active — the one whose key was last selected — and the
rendered list is exactly the selected group's records in order.
Quantifying over all click sequences covers the state after the initial
selection (`ks = []`) and after every subsequent click (every prefix of
a longer sequence). -/
theorem initTabs_clickSeq_active_invariant (st : AppState) (ks : List String)
    (hnd : (tabKeys st).Nodup) (hj : "journals" ∈ tabKeys st)
    (hks : ∀ k ∈ ks, k ∈ tabKeys st) :
    TabInv (clickSeq ks (initTabs st)) ∧
    (clickSeq ks (initTabs st)).active = ks.foldl (fun _ k => k) "journals" := by
  have h0 : TabInv (initTabs st) := setActive_inv st "journals" hnd hj
  have hkeys0 : tabKeys (initTabs st) = tabKeys st :=
    setActive_tabKeys "journals" st
  have hks0 : ∀ k ∈ ks, k ∈ tabKeys (initTabs st) := by
    intro k hk
    rw [hkeys0]
    exact hks k hk
  obtain ⟨j1, _, j3⟩ := clickSeq_inv ks (initTabs st) (hkeys0 ▸ hnd) hks0 h0
  exact ⟨j1, j3⟩

/-- Witness for C8: the three standard tabs, clicking conferences, then
book chapters, then journals. -/
theorem initTabs_clickSeq_active_invariant_witness :
    TabInv (clickSeq ["conferences", "book_chapters", "journals"]
      (initTabs sampleState)) ∧
    (clickSeq ["conferences", "book_chapters", "journals"]
        (initTabs sampleState)).active =
      ["conferences", "book_chapters", "journals"].foldl (fun _ k => k)
        "journals" :=
  initTabs_clickSeq_active_invariant sampleState
    ["conferences", "book_chapters", "journals"]
    (by decide) (by decide) (by decide)

